import Mathlib

/-!
Verification development for the AiChatSync chat server.

The definitions below are a shallow embedding of the TypeScript source:
`server/storage.ts` (persistence operations over in-memory row lists),
`server/routes.ts` (the `/api/chat` handler and its helpers),
`server/openai.ts` (the completion gateway) and `server/mcp-client.ts`
(the MCP tool service).  Database tables are modelled as Lean lists of
row structures kept in insertion (id) order; external effects (the
completion provider, the Tavily HTTP fetch, `Math.random`, the clock)
are modelled as explicit oracle parameters.  JavaScript truthiness on
optional numeric ids (`userId || MOCK_USER_ID`, `if (!conversationId)`,
`prompt.userId && ...`) is modelled by `truthyNat`, and truthiness on
strings (`args.city || "北京"`) by `strOr`.
-/

namespace AiChatSync

/-- JS truthiness for an optional numeric id: `undefined`/`null` and `0`
are falsy, every other number is kept (`shared/schema.ts` ids). -/
def truthyNat : Option Nat → Option Nat
  | some (n + 1) => some (n + 1)
  | _ => none

/-- `a || dflt` for an optional string: absent or empty means the
default is used (JS `||` treats `""` as falsy). -/
def strOr (o : Option String) (dflt : String) : String :=
  match o with
  | some s => if s = "" then dflt else s
  | none => dflt

/-- `a.includes(b)` on strings (substring containment). -/
def strContains (s sub : String) : Bool :=
  (List.range (s.length + 1)).any (fun i => sub.data.isPrefixOf (s.data.drop i))

/-! ## Data model (`shared/schema.ts`) -/

/-- Row of the `system_prompts` table. -/
structure SystemPrompt where
  id : Nat
  title : String
  content : String
  userId : Option Nat
  isDefault : Bool
  timestamp : Nat
deriving DecidableEq, Repr

/-- Row of the `mcp_tools` table (`configuration` is an opaque jsonb
payload never inspected by the server code, kept as a string). -/
structure McpTool where
  id : Nat
  name : String
  description : String
  icon : String
  configuration : String
  userId : Option Nat
  isEnabled : Bool
  timestamp : Nat
deriving DecidableEq, Repr

/-- Row of the `conversations` table (`enabledTools` is the jsonb array
of McpTool ids). -/
structure Conversation where
  id : Nat
  title : String
  userId : Option Nat
  systemPromptId : Option Nat
  enabledTools : List Nat
  timestamp : Nat
deriving DecidableEq, Repr

/-- Tool arguments: a parsed JSON object holding the string-valued
parameters the built-in tools read (`location`, `date`, `city`). -/
abbrev ToolArgs := List (String × String)

/-- Result value produced by one of the MCP tool executors
(`server/mcp-client.ts`); one variant per executor outcome shape. -/
inductive ToolResult where
  | cityInfo (city country population area timezone famousFor : String)
  | weather (location date condition temperature humidity windSpeed : String)
  | searchData (data : String)
  | searchError (error : String)
  | unknownTool (message : String)
deriving DecidableEq, Repr

/-- The `toolCall` jsonb payload stored on messages by the `/api/chat`
tool branch: `{toolId, name, parameters}` (`toolId` may be undefined). -/
structure ToolCallPayload where
  toolId : Option Nat
  name : String
  parameters : ToolArgs
deriving DecidableEq, Repr

/-- Row of the `messages` table. -/
structure Message where
  id : Nat
  role : String
  content : String
  userId : Option Nat
  conversationId : Option Nat
  toolCall : Option ToolCallPayload
  toolResult : Option ToolResult
deriving DecidableEq, Repr

/-! ## SystemPrompt storage operations (`server/storage.ts`) -/

/-- `Partial<InsertSystemPrompt>`: the update payload of
`updateSystemPrompt`; `none` marks an absent key. -/
structure PromptPatch where
  title : Option String
  content : Option String
  userId : Option Nat
  isDefault : Option Bool
deriving DecidableEq, Repr

/-- `InsertSystemPrompt` as built by the POST route
(`isDefault: isDefault || false`, so always a concrete boolean). -/
structure InsertSystemPrompt where
  title : String
  content : String
  userId : Option Nat
  isDefault : Bool
deriving DecidableEq, Repr

/-- The `UPDATE system_prompts SET is_default = false WHERE user_id = uid
AND is_default = true` step shared by `createSystemPrompt` and
`setDefaultSystemPrompt`. -/
def unsetDefaultsFor (uid : Nat) (st : List SystemPrompt) : List SystemPrompt :=
  st.map (fun p =>
    if p.userId = some uid ∧ p.isDefault = true then { p with isDefault := false } else p)

/-- `DatabaseStorage.createSystemPrompt` (storage.ts:173-190): when the
insert is marked default and carries a (truthy) userId, existing
defaults of that user are unset first, then the row is appended. -/
def createSystemPrompt (st : List SystemPrompt) (p : InsertSystemPrompt)
    (newId ts : Nat) : List SystemPrompt :=
  let st1 : List SystemPrompt :=
    match p.isDefault, truthyNat p.userId with
    | true, some uid => unsetDefaultsFor uid st
    | _, _ => st
  st1 ++ [⟨newId, p.title, p.content, p.userId, p.isDefault, ts⟩]

/-- Apply a drizzle `.set(prompt)` partial update to a row: only the
keys present in the patch are overwritten. -/
def applyPromptPatch (p : SystemPrompt) (u : PromptPatch) : SystemPrompt :=
  { p with
    title := u.title.getD p.title
    content := u.content.getD p.content
    userId := match u.userId with | some v => some v | none => p.userId
    isDefault := u.isDefault.getD p.isDefault }

/-- `DatabaseStorage.updateSystemPrompt` (storage.ts:192-221): the
"unset other defaults" pass runs only when the patch itself contains
`isDefault: true` AND a truthy `userId` (`if (prompt.isDefault &&
prompt.userId)`); then the patch is applied to the addressed row. -/
def updateSystemPrompt (st : List SystemPrompt) (id : Nat) (u : PromptPatch) :
    List SystemPrompt :=
  let st1 : List SystemPrompt :=
    match u.isDefault, truthyNat u.userId with
    | some true, some uid =>
      st.map (fun p =>
        if p.userId = some uid ∧ p.isDefault = true ∧ p.id ≠ id then
          { p with isDefault := false } else p)
    | _, _ => st
  st1.map (fun p => if p.id = id then applyPromptPatch p u else p)

/-- `DatabaseStorage.setDefaultSystemPrompt` (storage.ts:229-246):
unset every default of the user, then set the addressed row default. -/
def setDefaultSystemPrompt (st : List SystemPrompt) (id uid : Nat) :
    List SystemPrompt :=
  (unsetDefaultsFor uid st).map
    (fun p => if p.id = id then { p with isDefault := true } else p)

/-- Number of rows of `st` that are a default prompt of user `uid`. -/
def countDefaults (st : List SystemPrompt) (uid : Nat) : Nat :=
  (st.filter (fun p => p.userId = some uid ∧ p.isDefault = true)).length

/-- Sorted-descending insertion by `timestamp` (models `ORDER BY
timestamp DESC` on the system_prompts table). -/
def insertByTimestampDesc (p : SystemPrompt) : List SystemPrompt → List SystemPrompt
  | [] => [p]
  | q :: qs =>
    if p.timestamp ≤ q.timestamp then q :: insertByTimestampDesc p qs
    else p :: q :: qs

/-- Sort a prompt list by `timestamp` descending. -/
def sortByTimestampDesc : List SystemPrompt → List SystemPrompt
  | [] => []
  | p :: ps => insertByTimestampDesc p (sortByTimestampDesc ps)

/-- `DatabaseStorage.getUserSystemPrompts` (storage.ts:149-155): the
user's prompts ordered by timestamp descending. -/
def getUserSystemPrompts (st : List SystemPrompt) (uid : Nat) : List SystemPrompt :=
  sortByTimestampDesc (st.filter (fun p => p.userId = some uid))

/-- `DatabaseStorage.getDefaultSystemPrompt` (storage.ts:157-171): the
user's default prompt if one exists, otherwise the head of the
timestamp-descending prompt list ("Return first prompt if no default
is set"), otherwise none. -/
def getDefaultSystemPrompt (st : List SystemPrompt) (uid : Nat) : Option SystemPrompt :=
  match st.find? (fun p => p.userId = some uid ∧ p.isDefault = true) with
  | some p => some p
  | none => (getUserSystemPrompts st uid).head?

/-! ## Tool executors (`server/mcp-client.ts`) -/

/-- Look up a string argument of the parsed JSON argument object. -/
def argStr (args : ToolArgs) (key : String) : Option String :=
  (args.find? (fun kv => kv.1 = key)).map (fun kv => kv.2)

/-- The weather conditions array of `executeWeatherTool`. -/
def weatherConditions : List String :=
  ["晴朗", "多云", "小雨", "大雨", "雷雨", "大雪", "有雾"]

/-- The `Math.random()` draws of `executeWeatherTool` and the value of
`new Date().toLocaleDateString()`, supplied by the environment. -/
structure WeatherDraws where
  conditionIdx : Nat
  temperature : Nat
  humidity : Nat
  windSpeed : Nat
  today : String
deriving DecidableEq, Repr

/-- `MCPService.executeWeatherTool` (mcp-client.ts:360-382): defaults
location to 北京 and date to today, fills in randomly drawn weather. -/
def executeWeatherTool (draws : WeatherDraws) (args : ToolArgs) : ToolResult :=
  let location := strOr (argStr args "location") "北京"
  let date := strOr (argStr args "date") draws.today
  let condition :=
    (weatherConditions.get? (draws.conditionIdx % weatherConditions.length)).getD "晴朗"
  .weather location date condition
    (toString draws.temperature ++ "°C")
    (toString draws.humidity ++ "%")
    (toString draws.windSpeed ++ " km/h")

/-- The per-city record of the simulated city information table. -/
structure CityRecord where
  country : String
  population : String
  area : String
  timezone : String
  famousFor : String
deriving DecidableEq, Repr

/-- The `cityInfo` lookup table of `executeCityInfoTool`
(mcp-client.ts:388-410). -/
def cityInfoTable : List (String × CityRecord) :=
  [("北京", ⟨"中国", "21.54 million", "16,410 km²", "UTC+8", "故宫，长城，天坛"⟩),
   ("上海", ⟨"中国", "26.32 million", "6,340 km²", "UTC+8", "外滩，东方明珠，豫园"⟩),
   ("广州", ⟨"中国", "15.31 million", "7,434 km²", "UTC+8", "广州塔，沙面，陈家祠"⟩)]

/-- `MCPService.executeCityInfoTool` (mcp-client.ts:384-424):
`const city = args.city || "北京"`, then a table lookup with an
explicit unknown-city fallback record; always returns a value. -/
def executeCityInfoTool (args : ToolArgs) : ToolResult :=
  let city := strOr (argStr args "city") "北京"
  match (cityInfoTable.find? (fun kv => kv.1 = city)).map (fun kv => kv.2) with
  | some info =>
    .cityInfo city info.country info.population info.area info.timezone info.famousFor
  | none =>
    .cityInfo city "未知" "数据不可用" "数据不可用" "未知" "未知"

/-- The projected `country` field of a tool result object. -/
def resultCountry : ToolResult → Option String
  | .cityInfo _ country _ _ _ _ => some country
  | _ => none

/-- Outcome of the `fetch` call against the Tavily endpoint: success
with a JSON body, a non-success HTTP status, or a transport failure. -/
inductive FetchOutcome where
  | ok (data : String)
  | httpError (status : Nat)
  | transportError (msg : String)
deriving DecidableEq, Repr

/-- The try-block of `executeTavilySearchTool` (mcp-client.ts:430-453):
a non-ok response throws `Tavily API returned status <s>`; a transport
failure is the thrown error's message; success yields the body. -/
def tavilyRequest (fetch : FetchOutcome) : Except String String :=
  match fetch with
  | .ok data => .ok data
  | .httpError status => .error ("Tavily API returned status " ++ toString status)
  | .transportError msg => .error msg

/-- `MCPService.executeTavilySearchTool` (mcp-client.ts:426-460): the
catch converts any thrown error into a structured `error` result, so
the executor itself always returns a value.  The request body built
from `args` is folded into the fetch oracle. -/
def executeTavilySearchTool (fetch : FetchOutcome) (args : ToolArgs) : ToolResult :=
  match tavilyRequest fetch with
  | .ok data => .searchData data
  | .error msg => .searchError ("Tavily搜索出错: " ++ msg)

/-- External-effect environment of a tool execution. -/
structure ExecEnv where
  fetch : FetchOutcome
  draws : WeatherDraws
deriving DecidableEq, Repr

/-- The tool-name dispatch of `processWithTools`
(mcp-client.ts:290-305), including the unknown-tool placeholder. -/
def dispatchTool (env : ExecEnv) (name : String) (args : ToolArgs) : ToolResult :=
  if name = "get_weather" then executeWeatherTool env.draws args
  else if name = "get_city_info" then executeCityInfoTool args
  else if name = "tavily_search" then executeTavilySearchTool env.fetch args
  else .unknownTool ("工具 \"" ++ name ++
    "\" 不可用或无法识别。请使用 tavily_search、get_weather 或 get_city_info。")

/-! ## MCP service and tool registry (`server/mcp-client.ts`) -/

/-- One property of a tool's JSON input schema (name, JSON type,
description).  Enum/default decorations are never read by the server
code, which forwards schemas opaquely to the provider. -/
structure SchemaProperty where
  name : String
  jsonType : String
  description : String
deriving DecidableEq, Repr

/-- `MCPToolDefinition`: a tool declaration offered to the provider. -/
structure MCPToolDefinition where
  name : String
  description : String
  properties : List SchemaProperty
  required : List String
deriving DecidableEq, Repr

/-- `initializeDefaultTools` (mcp-client.ts:100-138): the two built-in
simulated tools. -/
def defaultTools : List MCPToolDefinition :=
  [⟨"get_weather", "获取指定地点的天气信息",
    [⟨"location", "string", "城市名称（如：北京，上海）"⟩,
     ⟨"date", "string", "日期（可选，格式：YYYY-MM-DD）"⟩],
    ["location"]⟩,
   ⟨"get_city_info", "获取城市的基本信息",
    [⟨"city", "string", "城市名称（如：北京，上海，广州）"⟩],
    ["city"]⟩]

/-- `addTavilySearchTool` (mcp-client.ts:140-185): appends the Tavily
search declaration to the registry (done when TAVILY_API_KEY is set). -/
def addTavilySearchTool (tools : List MCPToolDefinition) : List MCPToolDefinition :=
  tools ++
  [⟨"tavily_search", "使用Tavily搜索引擎搜索互联网上的最新信息",
    [⟨"query", "string", "要搜索的查询字符串"⟩,
     ⟨"search_depth", "string", "搜索深度，基本或高级"⟩,
     ⟨"include_domains", "array", "要包含的域名列表"⟩,
     ⟨"exclude_domains", "array", "要排除的域名列表"⟩,
     ⟨"max_results", "integer", "最大返回结果数"⟩],
    ["query"]⟩]

/-- One tool call requested by the provider (a `function`-type entry of
`assistantMessage.tool_calls`, with its arguments already JSON-parsed). -/
structure ToolCallRequest where
  name : String
  arguments : ToolArgs
deriving DecidableEq, Repr

/-- First-pass provider response: the assistant message's nullable
`content` and its (possibly empty) list of requested tool calls. -/
structure ProviderResponse where
  content : Option String
  tool_calls : List ToolCallRequest
deriving DecidableEq, Repr

/-- `MCPToolResult`: one executed call recorded in the returned
`toolCalls` array. -/
structure MCPToolResult where
  name : String
  arguments : ToolArgs
  result : ToolResult
deriving DecidableEq, Repr

/-- The `{content, toolCalls}` value returned by `processWithTools`. -/
structure ProcessResult where
  content : String
  toolCalls : List MCPToolResult
deriving DecidableEq, Repr

/-- Observable outcome of one `processWithTools` run: its returned
value, the executions actually performed (in order), and the tool
names declared to the provider in the first-pass request. -/
structure ProcessOutcome where
  result : ProcessResult
  executed : List (String × ToolArgs)
  declared : List String
deriving DecidableEq, Repr

/-- `MCPService.processWithTools` (mcp-client.ts:238-358).  The two
provider round-trips are oracles: `first` is the first-pass
`chat.completions.create` (throwing or returning a response), `second`
the tool-result round-trip (throwing or returning nullable content).
The declarations sent are the full registry (`this.tools`).  On a
response with requested tool calls the loop body executes the first
`function`-type call and returns from inside the loop, so later
entries are never reached; the surrounding catch converts any thrown
error into an error-text result with an empty `toolCalls`. -/
def processWithTools (svc : List MCPToolDefinition) (env : ExecEnv)
    (first : Except String ProviderResponse)
    (second : Except String (Option String)) : ProcessOutcome :=
  let declared := svc.map (fun t => t.name)
  match first with
  | .error e => ⟨⟨"处理消息时出错: " ++ e, []⟩, [], declared⟩
  | .ok resp =>
    match resp.tool_calls with
    | [] => ⟨⟨resp.content.getD "没有返回内容", []⟩, [], declared⟩
    | tc :: _ =>
      let result := dispatchTool env tc.name tc.arguments
      match second with
      | .error e =>
        ⟨⟨"处理消息时出错: " ++ e, []⟩, [(tc.name, tc.arguments)], declared⟩
      | .ok c =>
        ⟨⟨c.getD "没有返回内容", [⟨tc.name, tc.arguments, result⟩]⟩,
          [(tc.name, tc.arguments)], declared⟩

/-! ## Persistence store (`server/storage.ts`) -/

/-- The database as in-memory tables; rows are kept in insertion (id)
order, matching `ORDER BY id` on message reads. -/
structure Store where
  conversations : List Conversation
  messages : List Message
  systemPrompts : List SystemPrompt
  mcpTools : List McpTool
  nextMessageId : Nat
  nextConversationId : Nat
deriving DecidableEq, Repr

/-- `DatabaseStorage.getConversation`. -/
def getConversation (st : Store) (id : Nat) : Option Conversation :=
  st.conversations.find? (fun c => c.id = id)

/-- `DatabaseStorage.getMcpTool`. -/
def getMcpTool (st : Store) (id : Nat) : Option McpTool :=
  st.mcpTools.find? (fun t => t.id = id)

/-- `DatabaseStorage.getSystemPrompt`. -/
def getSystemPrompt (st : Store) (id : Nat) : Option SystemPrompt :=
  st.systemPrompts.find? (fun p => p.id = id)

/-- `DatabaseStorage.getConversationMessages` (storage.ts:124-130):
the conversation's messages in id (insertion) order. -/
def getConversationMessages (st : Store) (cid : Nat) : List Message :=
  st.messages.filter (fun m => m.conversationId = some cid)

/-- The `InsertMessage` payload of `createMessage`. -/
structure InsertMessage where
  role : String
  content : String
  userId : Option Nat
  conversationId : Option Nat
  toolCall : Option ToolCallPayload
  toolResult : Option ToolResult
deriving DecidableEq, Repr

/-- `DatabaseStorage.createMessage` (storage.ts:132-138): insert a row
with the next serial id, returning the new row. -/
def createMessage (st : Store) (m : InsertMessage) : Message × Store :=
  let row : Message :=
    ⟨st.nextMessageId, m.role, m.content, m.userId, m.conversationId,
      m.toolCall, m.toolResult⟩
  (row, { st with messages := st.messages ++ [row],
                  nextMessageId := st.nextMessageId + 1 })

/-- The `InsertConversation` payload of `createConversation`. -/
structure InsertConversation where
  title : String
  userId : Option Nat
  systemPromptId : Option Nat
  enabledTools : List Nat
deriving DecidableEq, Repr

/-- `DatabaseStorage.createConversation` (storage.ts:85-91). -/
def createConversation (st : Store) (c : InsertConversation) : Conversation × Store :=
  let row : Conversation :=
    ⟨st.nextConversationId, c.title, c.userId, c.systemPromptId, c.enabledTools, 0⟩
  (row, { st with conversations := st.conversations ++ [row],
                  nextConversationId := st.nextConversationId + 1 })

/-! ## `/api/chat` route (`server/routes.ts`) -/

/-- A role-tagged message as sent to the completion provider.  The
role stays a plain string because `formatMessagesForOpenAI` only
casts `message.role` at the type level: at runtime the stored role
string (including `"tool"`) passes through unchanged. -/
structure ChatMessage where
  role : String
  content : String
deriving DecidableEq, Repr

/-- `formatMessagesForOpenAI` (routes.ts:52-72): prepend the system
prompt when truthy, then map each stored message to `{role, content}`
with the role forwarded as-is. -/
def formatMessagesForOpenAI (msgs : List Message) (systemPrompt : Option String) :
    List ChatMessage :=
  (match systemPrompt with
   | some sp => if sp = "" then [] else [⟨"system", sp⟩]
   | none => []) ++
  msgs.map (fun m => (⟨m.role, m.content⟩ : ChatMessage))

/-- The message-formatting map inside the alternate
`generateChatCompletion` implementation shipped in the repository
(the variant completion gateway in src/unnamed/part_002): every
`tool`-role message is down-converted to a `system`-role message
prefixed with "Tool result: "; other messages pass through. -/
def convertToolMessages (msgs : List ChatMessage) : List ChatMessage :=
  msgs.map (fun m =>
    if m.role = "tool" then (⟨"system", "Tool result: " ++ m.content⟩ : ChatMessage)
    else m)

/-- `generateChatCompletion` (server/openai.ts:21-37): the provider
call is an oracle; on success the nullable content collapses to `""`
(`content || ""`), on any error the function throws
`Failed to generate completion`. -/
def generateChatCompletion (api : Except Unit (Option String)) : Except String String :=
  match api with
  | .ok c => .ok (c.getD "")
  | .error _ => .error "Failed to generate completion"

/-- `message.substring(0, 50) + (message.length > 50 ? "..." : "")`
(routes.ts:453). -/
def chatTitle (message : String) : String :=
  message.take 50 ++ (if message.length > 50 then "..." else "")

/-- The conversation created by `/api/chat` when no id was supplied
(routes.ts:450-458): titled from the message, attached to the user's
default system prompt when one resolves, with no enabled tools. -/
def createConversationForChat (st : Store) (message : String) (uid : Nat) :
    Conversation × Store :=
  let defaultPrompt := getDefaultSystemPrompt st.systemPrompts uid
  createConversation st
    ⟨chatTitle message, some uid, defaultPrompt.map (fun p => p.id), []⟩

/-- Conversation resolution of `/api/chat` (routes.ts:448-459): keep a
truthy supplied id, otherwise create a conversation titled from the
message, attached to the user's default prompt, with no tools. -/
def resolveConversation (st : Store) (message : String)
    (conversationId : Option Nat) (uid : Nat) : Nat × Store :=
  match truthyNat conversationId with
  | some cid => (cid, st)
  | none =>
    let (conv, st1) := createConversationForChat st message uid
    (conv.id, st1)

/-- System-prompt resolution of `/api/chat` (routes.ts:472-483): an
explicit truthy request-level prompt id wins, else the conversation's
stored prompt id, else none; a dangling id resolves to none. -/
def resolveSystemPromptContent (st : Store) (systemPromptId : Option Nat)
    (cid : Nat) : Option String :=
  match truthyNat systemPromptId with
  | some pid => (getSystemPrompt st pid).map (fun p => p.content)
  | none =>
    match getConversation st cid with
    | some conv =>
      match conv.systemPromptId with
      | some pid => (getSystemPrompt st pid).map (fun p => p.content)
      | none => none
    | none => none

/-- The enabled-tool resolution of `/api/chat` (routes.ts:489-507):
the conversation's `enabledTools` ids, resolved against the mcp_tools
table and filtered to rows that still exist and are enabled. -/
def chatEnabledTools (st : Store) (cid : Nat) : List McpTool :=
  match getConversation st cid with
  | some conv =>
    conv.enabledTools.filterMap (fun tid =>
      match getMcpTool st tid with
      | some t => if t.isEnabled then some t else none
      | none => none)
  | none => []

/-- One block of the tools system-prompt template (routes.ts:512-517). -/
def toolInfoBlock (idx : Nat) (t : McpTool) : String :=
  "\nTool " ++ toString (idx + 1) ++ ": " ++ t.name ++
  "\nDescription: " ++ t.description ++
  "\nUsage: To use this tool, respond with: [USE_TOOL:" ++ toString t.id ++
  ":parameters]\nWhere parameters is a valid JSON object with the parameters for the tool.\n"

/-- The `toolsInfo` template (routes.ts:510-520), instructing the model
to answer with the bracketed `[USE_TOOL:<id>:<json>]` marker. -/
def toolsInfoText (tools : List McpTool) : String :=
  "\nYou have access to the following tools:\n" ++
  String.intercalate "\n" (tools.enum.map (fun p => toolInfoBlock p.1 p.2)) ++
  "\n\nWhen you want to use a tool, respond with the [USE_TOOL] syntax mentioned above.\n"

/-- Combination of tools info and system prompt (routes.ts:525-530),
with JS truthiness on both strings. -/
def combinePrompt (toolsInfo : String) (spc : Option String) : Option String :=
  if toolsInfo = "" then spc
  else
    match spc with
    | some c => if c = "" then some toolsInfo else some (c ++ "\n\n" ++ toolsInfo)
    | none => some toolsInfo

/-- `JSON.stringify` of a tool result, as embedded in the tool-role
message content (routes.ts:582). -/
def serializeResult : ToolResult → String
  | .cityInfo city country population area timezone famousFor =>
    "\x7b\"city\":\"" ++ city ++ "\",\"country\":\"" ++ country ++
    "\",\"population\":\"" ++ population ++ "\",\"area\":\"" ++ area ++
    "\",\"timezone\":\"" ++ timezone ++ "\",\"famousFor\":\"" ++ famousFor ++ "\"\x7d"
  | .weather location date condition temperature humidity windSpeed =>
    "\x7b\"location\":\"" ++ location ++ "\",\"date\":\"" ++ date ++
    "\",\"weather\":\x7b\"condition\":\"" ++ condition ++ "\",\"temperature\":\"" ++
    temperature ++ "\",\"humidity\":\"" ++ humidity ++ "\",\"windSpeed\":\"" ++
    windSpeed ++ "\"\x7d\x7d"
  | .searchData data => data
  | .searchError error => "\x7b\"error\":\"" ++ error ++ "\"\x7d"
  | .unknownTool message => "\x7b\"message\":\"" ++ message ++ "\"\x7d"

/-- The external-call oracles one `/api/chat` turn consumes: the two
`processWithTools` provider round-trips, the plain
`generateChatCompletion` API call, and the tool-execution
environment. -/
structure ChatOracles where
  first : Except String ProviderResponse
  second : Except String (Option String)
  api : Except Unit (Option String)
  env : ExecEnv
deriving Repr

/-- The validated `/api/chat` request body (`chatCompletionSchema`). -/
structure ChatRequest where
  message : String
  conversationId : Option Nat
  systemPromptId : Option Nat
  userId : Option Nat
  useTool : Option Bool
deriving DecidableEq, Repr

/-- The JSON body answered by `/api/chat`. -/
inductive ChatResponse where
  | toolResponse (content : String) (conversationId : Nat) (toolId : Option Nat)
      (toolName : String) (parameters : ToolArgs) (toolResult : ToolResult)
  | plain (content : String) (conversationId : Nat) (availableTools : List String)
  | validationError (msg : String)
  | serverError
deriving DecidableEq, Repr

/-- Trace of the externally visible calls one handler run performed:
tool names declared to the provider, tool executions, the computed
`availableTools`, and the message list handed to the plain completion
call (when that call was made). -/
structure ChatTrace where
  declared : List String
  executed : List (String × ToolArgs)
  available : List String
  providerInput : Option (List ChatMessage)
deriving DecidableEq, Repr

/-- The trace of a run that performed no external call. -/
def emptyTrace : ChatTrace := ⟨[], [], [], none⟩

/-- The tool-id recovery of the `/api/chat` tool branch
(routes.ts:553-564): map the conversation's `enabledTools` ids through
`getMcpTool` (without the isEnabled filter) and take the first tool
whose lowercase name contains the called name. -/
def matchToolId (st : Store) (cid : Nat) (calledName : String) : Option Nat :=
  let enabled :=
    match getConversation st cid with
    | some conv => conv.enabledTools.filterMap (fun tid => getMcpTool st tid)
    | none => []
  (enabled.find? (fun t => strContains t.name.toLower calledName.toLower)).map
    (fun t => t.id)

/-- `/api/chat` after the user message is persisted
(routes.ts:469-628): resolve prompt and enabled tools; on the tool
path run `processWithTools` and, when it reports a tool call, persist
the assistant (with `toolCall`) and tool (with `toolResult`) messages
and answer with the tool payload; otherwise persist a plain assistant
message, where the non-tool path first consults
`generateChatCompletion` and converts a thrown error into a 500
response with nothing further persisted. -/
def chatAfterPersist (svc : List MCPToolDefinition) (oracles : ChatOracles)
    (req : ChatRequest) (uid cid : Nat) (st : Store) :
    Store × ChatResponse × ChatTrace :=
  let conversationMessages := getConversationMessages st cid
  let spc0 := resolveSystemPromptContent st req.systemPromptId cid
  let useTool := req.useTool.getD false
  let tools := if useTool then chatEnabledTools st cid else []
  let availableTools := tools.map (fun t => t.name)
  let toolsInfo := if tools ≠ [] then toolsInfoText tools else ""
  let spc := combinePrompt toolsInfo spc0
  let formatted := formatMessagesForOpenAI conversationMessages spc
  if useTool ∧ availableTools ≠ [] then
    let out := processWithTools svc oracles.env oracles.first oracles.second
    let trace : ChatTrace := ⟨out.declared, out.executed, availableTools, none⟩
    match out.result.toolCalls with
    | tc :: _ =>
      let toolId := matchToolId st cid tc.name
      let (_, st1) := createMessage st
        ⟨"assistant", out.result.content, some uid, some cid,
          some ⟨toolId, tc.name, tc.arguments⟩, none⟩
      let (_, st2) := createMessage st1
        ⟨"tool", "工具 \"" ++ tc.name ++ "\" 返回: " ++ serializeResult tc.result,
          some uid, some cid, some ⟨toolId, tc.name, tc.arguments⟩, some tc.result⟩
      (st2, .toolResponse out.result.content cid toolId tc.name tc.arguments tc.result,
        trace)
    | [] =>
      let (_, st1) := createMessage st
        ⟨"assistant", out.result.content, some uid, some cid, none, none⟩
      (st1, .plain out.result.content cid availableTools, trace)
  else
    let trace : ChatTrace := ⟨[], [], availableTools, some formatted⟩
    match generateChatCompletion oracles.api with
    | .error _ => (st, .serverError, trace)
    | .ok s =>
      let (_, st1) := createMessage st
        ⟨"assistant", s, some uid, some cid, none, none⟩
      (st1, .plain s cid availableTools, trace)

/-- The `/api/chat` handler (routes.ts:441-632): validate the message,
default the user id (`userId || MOCK_USER_ID`), resolve or create the
conversation, persist the user message immediately, then run the
completion paths. -/
def chatHandler (svc : List MCPToolDefinition) (oracles : ChatOracles)
    (req : ChatRequest) (st : Store) : Store × ChatResponse × ChatTrace :=
  if req.message = "" then (st, .validationError "Message cannot be empty", emptyTrace)
  else
    let uid := (truthyNat req.userId).getD 1
    let (cid, st1) := resolveConversation st req.message req.conversationId uid
    let (_, st2) := createMessage st1
      ⟨"user", req.message, some uid, some cid, none, none⟩
    chatAfterPersist svc oracles req uid cid st2

/-! ## Concrete fixtures used by witnesses and counterexamples -/

/-- A weather-enabled tool row of user 1. -/
def demoTool : McpTool := ⟨1, "get_weather", "天气", "tool", "cfg", some 1, true, 0⟩

/-- A conversation of user 1 with tool 1 enabled. -/
def demoConv : Conversation := ⟨1, "t", some 1, none, [1], 0⟩

/-- A store holding `demoConv` and `demoTool` and no messages. -/
def demoStore : Store := ⟨[demoConv], [], [], [demoTool], 1, 2⟩

/-- A deterministic tool-execution environment. -/
def demoEnv : ExecEnv := ⟨.ok "d", ⟨0, 20, 50, 5, "2026-10-11"⟩⟩

/-- Oracles for a turn whose first pass requests `get_weather` and whose
second pass answers "done". -/
def demoOracles : ChatOracles :=
  ⟨.ok ⟨some "calling", [⟨"get_weather", [("location", "北京")]⟩]⟩,
    .ok (some "done"), .ok (some "plain"), demoEnv⟩

/-- Oracles for a turn whose provider answers with the text-marker
fallback syntax instead of a native tool call. -/
def markerOracles : ChatOracles :=
  ⟨.ok ⟨some "[USE_TOOL:1:\x7b\x7d]", []⟩, .ok none, .ok (some "plain"), demoEnv⟩

/-- Oracles whose plain completion call fails. -/
def failOracles : ChatOracles :=
  ⟨.ok ⟨some "x", []⟩, .ok none, .error (), demoEnv⟩

/-- Two prompts of user 1, neither default, the newer one with id 2. -/
def demoPromptStore : Store :=
  ⟨[], [], [⟨1, "x", "c1", some 1, false, 5⟩, ⟨2, "y", "c2", some 1, false, 9⟩], [], 1, 1⟩

/-- A historical tool-role message row. -/
def toolHistoryMessage : Message := ⟨1, "tool", "data", some 1, some 1, none, none⟩

/-! ## Helper lemmas -/

theorem truthyNat_of_ne_zero (n : Nat) (h : n ≠ 0) : truthyNat (some n) = some n := by
  cases n with
  | zero => exact absurd rfl h
  | succ k => rfl

theorem mem_insertByTimestampDesc {p q : SystemPrompt} {l : List SystemPrompt} :
    q ∈ insertByTimestampDesc p l ↔ q = p ∨ q ∈ l := by
  induction l with
  | nil => simp [insertByTimestampDesc]
  | cons r rs ih =>
    simp only [insertByTimestampDesc]
    split <;> simp only [List.mem_cons, ih] <;> tauto

theorem mem_sortByTimestampDesc {q : SystemPrompt} {l : List SystemPrompt} :
    q ∈ sortByTimestampDesc l ↔ q ∈ l := by
  induction l with
  | nil => simp [sortByTimestampDesc]
  | cons p ps ih =>
    simp only [sortByTimestampDesc, mem_insertByTimestampDesc, List.mem_cons, ih]

theorem insertByTimestampDesc_ne_nil (p : SystemPrompt) (l : List SystemPrompt) :
    insertByTimestampDesc p l ≠ [] := by
  cases l with
  | nil => simp [insertByTimestampDesc]
  | cons r rs =>
    simp only [insertByTimestampDesc]
    split <;> simp

theorem sortByTimestampDesc_eq_nil {l : List SystemPrompt} :
    sortByTimestampDesc l = [] ↔ l = [] := by
  cases l with
  | nil => simp [sortByTimestampDesc]
  | cons p ps =>
    simp only [sortByTimestampDesc]
    exact ⟨fun h => absurd h (insertByTimestampDesc_ne_nil p _), fun h => by cases h⟩

theorem sortByTimestampDesc_head_max :
    ∀ (l : List SystemPrompt) (p : SystemPrompt) (tl : List SystemPrompt),
      sortByTimestampDesc l = p :: tl → ∀ q ∈ l, q.timestamp ≤ p.timestamp := by
  intro l
  induction l with
  | nil => intro p tl h; cases h
  | cons r rs ih =>
    intro p tl h q hq
    simp only [sortByTimestampDesc] at h
    cases hsort : sortByTimestampDesc rs with
    | nil =>
      rw [hsort] at h
      simp only [insertByTimestampDesc] at h
      cases h
      rcases List.mem_cons.mp hq with rfl | hq2
      · exact Nat.le_refl _
      · have hnil : rs = [] := sortByTimestampDesc_eq_nil.mp hsort
        rw [hnil] at hq2
        cases hq2
    | cons s ss =>
      rw [hsort] at h
      simp only [insertByTimestampDesc] at h
      by_cases hle : r.timestamp ≤ s.timestamp
      · rw [if_pos hle] at h
        cases h
        rcases List.mem_cons.mp hq with rfl | hq2
        · exact hle
        · exact ih _ _ hsort q hq2
      · rw [if_neg hle] at h
        cases h
        rcases List.mem_cons.mp hq with rfl | hq2
        · exact Nat.le_refl _
        · exact Nat.le_trans (ih _ _ hsort q hq2) (Nat.le_of_not_le hle)

theorem resolveConversation_messages (st : Store) (msg : String)
    (cidOpt : Option Nat) (uid : Nat) :
    (resolveConversation st msg cidOpt uid).2.messages = st.messages := by
  unfold resolveConversation
  cases truthyNat cidOpt <;> rfl

theorem createMessage_messages (st : Store) (m : InsertMessage) :
    (createMessage st m).2.messages = st.messages ++ [(createMessage st m).1] := rfl

theorem getConversationMessages_createMessage (st : Store) (m : InsertMessage)
    (cid : Nat) (h : m.conversationId = some cid) :
    getConversationMessages (createMessage st m).2 cid
      = getConversationMessages st cid ++ [(createMessage st m).1] := by
  simp [getConversationMessages, createMessage, List.filter_append, h]

theorem formatMessagesForOpenAI_mem (msgs : List Message) (sp : Option String)
    (m : Message) (hm : m ∈ msgs) :
    (⟨m.role, m.content⟩ : ChatMessage) ∈ formatMessagesForOpenAI msgs sp := by
  unfold formatMessagesForOpenAI
  exact List.mem_append_right _ (List.mem_map.mpr ⟨m, hm, rfl⟩)

theorem chatAfterPersist_messages_prefix (svc : List MCPToolDefinition)
    (oracles : ChatOracles) (req : ChatRequest) (uid cid : Nat) (st : Store) :
    st.messages <+: (chatAfterPersist svc oracles req uid cid st).1.messages := by
  simp only [chatAfterPersist, createMessage]
  repeat' split
  all_goals first
    | exact List.prefix_rfl
    | exact List.prefix_append _ _
    | (rw [List.append_assoc]; exact List.prefix_append _ _)

theorem processWithTools_declared (svc : List MCPToolDefinition) (env : ExecEnv)
    (f : Except String ProviderResponse) (s : Except String (Option String)) :
    (processWithTools svc env f s).declared = svc.map (fun t => t.name) := by
  unfold processWithTools
  cases f with
  | error e => rfl
  | ok resp =>
    rcases resp with ⟨c, tcs⟩
    cases tcs with
    | nil => rfl
    | cons tc tl => cases s <;> rfl

theorem chatAfterPersist_providerInput_mem (svc : List MCPToolDefinition)
    (oracles : ChatOracles) (req : ChatRequest) (uid cid : Nat) (st : Store)
    (inp : List ChatMessage)
    (h : (chatAfterPersist svc oracles req uid cid st).2.2.providerInput = some inp)
    (m : Message) (hm : m ∈ getConversationMessages st cid) :
    (⟨m.role, m.content⟩ : ChatMessage) ∈ inp := by
  simp only [chatAfterPersist] at h
  repeat' split at h
  all_goals first
    | exact Option.noConfusion h
    | exact Option.some.inj h ▸ formatMessagesForOpenAI_mem _ _ m hm

/-! ## Claim theorems -/

/-- Claim C2 (code-bug evaluation): with prompt A (id 1) the default of
user 1 and prompt B (id 2) not default, the update `updateSystemPrompt 2
{isDefault: true}` — the partial the PATCH `/api/system-prompts/:id`
route builds, which never includes `userId` — leaves BOTH prompts with
`isDefault = true`, violating the at-most-one-default invariant; by
contrast `setDefaultSystemPrompt 2 1` on the same state leaves exactly
one default, as the claim's "in particular" clause states. -/
theorem updateSystemPrompt_double_default :
    countDefaults
      (updateSystemPrompt
        [⟨1, "A", "a", some 1, true, 0⟩, ⟨2, "B", "b", some 1, false, 1⟩]
        2 ⟨none, none, none, some true⟩) 1 = 2 ∧
    countDefaults
      (setDefaultSystemPrompt
        [⟨1, "A", "a", some 1, true, 0⟩, ⟨2, "B", "b", some 1, false, 1⟩]
        2 1) 1 = 1 ∧
    (setDefaultSystemPrompt
        [⟨1, "A", "a", some 1, true, 0⟩, ⟨2, "B", "b", some 1, false, 1⟩]
        2 1).map (fun p => (p.id, p.isDefault)) = [(1, false), (2, true)] := by
  decide

/-- Claim C3: on a first-pass response carrying one or more requested
tool calls, `processWithTools` executes only the head call, and (when
the tool-result round-trip succeeds) the returned `toolCalls` array
contains exactly that one call with its execution result; the
remaining requested calls are never executed. -/
theorem processWithTools_first_call_only (svc : List MCPToolDefinition)
    (env : ExecEnv) (content : Option String) (tc : ToolCallRequest)
    (rest : List ToolCallRequest) (second : Except String (Option String))
    (c : Option String) (hsecond : second = .ok c) :
    (processWithTools svc env (.ok ⟨content, tc :: rest⟩) second).executed =
      [(tc.name, tc.arguments)] ∧
    (processWithTools svc env (.ok ⟨content, tc :: rest⟩) second).result.toolCalls =
      [⟨tc.name, tc.arguments, dispatchTool env tc.name tc.arguments⟩] := by
  subst hsecond
  exact ⟨rfl, rfl⟩

/-- Witness for C3: a response requesting `get_city_info` and then
`get_weather` executes and records only the `get_city_info` call. -/
theorem processWithTools_first_call_only_witness :
    (processWithTools defaultTools demoEnv
      (.ok ⟨some "x", [⟨"get_city_info", [("city", "北京")]⟩, ⟨"get_weather", []⟩]⟩)
      (.ok (some "done"))).executed = [("get_city_info", [("city", "北京")])] ∧
    (processWithTools defaultTools demoEnv
      (.ok ⟨some "x", [⟨"get_city_info", [("city", "北京")]⟩, ⟨"get_weather", []⟩]⟩)
      (.ok (some "done"))).result.toolCalls =
      [⟨"get_city_info", [("city", "北京")],
        dispatchTool demoEnv "get_city_info" [("city", "北京")]⟩] :=
  processWithTools_first_call_only defaultTools demoEnv (some "x")
    ⟨"get_city_info", [("city", "北京")]⟩ [⟨"get_weather", []⟩]
    (.ok (some "done")) (some "done") rfl

/-- Counterexample for C6: `formatMessagesForOpenAI` (routes.ts, the
formatter actually feeding `generateChatCompletion`) forwards a
historical `tool`-role message with its role unchanged and without any
"Tool result:" prefix, so the provider does receive a bare tool-role
message, contradicting the claim as stated. -/
theorem formatMessagesForOpenAI_keeps_tool_role :
    ∃ m ∈ formatMessagesForOpenAI [toolHistoryMessage] none,
      m.role = "tool" ∧ ¬ ("Tool result: ".isPrefixOf m.content = true) := by
  decide

/-- Claim C6 (amended): it is the alternate completion-gateway
implementation in the repository whose formatting map
(`convertToolMessages`) down-converts every `tool`-role history
message to a `system`-role message prefixed with "Tool result: ", so
no output message carries the tool role. -/
theorem convertToolMessages_downgrades_tool_role (msgs : List ChatMessage) :
    (∀ m ∈ convertToolMessages msgs, m.role ≠ "tool") ∧
    (∀ m ∈ msgs, m.role = "tool" →
      (⟨"system", "Tool result: " ++ m.content⟩ : ChatMessage) ∈
        convertToolMessages msgs) := by
  constructor
  · intro m hm
    simp only [convertToolMessages, List.mem_map] at hm
    obtain ⟨x, _, rfl⟩ := hm
    by_cases hx : x.role = "tool"
    · simp [hx]
    · simp [hx]
  · intro m hm h
    simp only [convertToolMessages, List.mem_map]
    exact ⟨m, hm, by simp [h]⟩

/-- Witness for C6 (amended): the single tool-role message is converted
to the prefixed system message. -/
theorem convertToolMessages_downgrades_tool_role_witness :
    (⟨"system", "Tool result: data"⟩ : ChatMessage) ∈
      convertToolMessages [⟨"tool", "data"⟩] :=
  (convertToolMessages_downgrades_tool_role [⟨"tool", "data"⟩]).2
    ⟨"tool", "data"⟩ (by decide) rfl

/-- Claim C8: a non-success HTTP status or a transport failure of the
Tavily call is converted by the executor's catch into a structured
`{error: <message>}` result carrying the provider's status/message —
never an exception — and `processWithTools` still completes the turn
with the second-pass answer and that structured result recorded. -/
theorem executeTavilySearchTool_never_throws (args query : ToolArgs)
    (status : Nat) (msg : String) (env0 : ExecEnv) (c : Option String) :
    executeTavilySearchTool (.httpError status) args =
      .searchError ("Tavily搜索出错: Tavily API returned status " ++ toString status) ∧
    executeTavilySearchTool (.transportError msg) args =
      .searchError ("Tavily搜索出错: " ++ msg) ∧
    (processWithTools (addTavilySearchTool defaultTools) env0
        (.ok ⟨none, [⟨"tavily_search", query⟩]⟩) (.ok c)).result =
      ⟨c.getD "没有返回内容",
        [⟨"tavily_search", query, executeTavilySearchTool env0.fetch query⟩]⟩ :=
  ⟨rfl, rfl, rfl⟩

/-- Counterexample for C9: the empty string is not a key of the
city-info lookup table, yet `executeCityInfoTool` with `city=""`
returns `country="中国"` (not `"未知"`), because `args.city || "北京"`
treats the empty string as absent and defaults to 北京. -/
theorem executeCityInfoTool_empty_city :
    resultCountry (executeCityInfoTool [("city", "")]) = some "中国" ∧
    resultCountry (executeCityInfoTool [("city", "")]) ≠ some "未知" ∧
    (∀ kv ∈ cityInfoTable, kv.1 ≠ "") := by
  decide

/-- Claim C9 (amended): `get_city_info` with `city="北京"` returns
`country="中国"`; with any NON-EMPTY city outside the lookup table
(北京, 上海, 广州) it returns `country="未知"`; and for every argument
object the execution returns a city-info record (it never throws). -/
theorem executeCityInfoTool_country (c : String) (hne : c ≠ "")
    (h1 : c ≠ "北京") (h2 : c ≠ "上海") (h3 : c ≠ "广州") :
    resultCountry (executeCityInfoTool [("city", "北京")]) = some "中国" ∧
    resultCountry (executeCityInfoTool [("city", c)]) = some "未知" ∧
    (∀ args : ToolArgs, (resultCountry (executeCityInfoTool args)).isSome = true) := by
  refine ⟨by decide, ?_, ?_⟩
  · have hs1 : ¬("北京" = c) := fun h => h1 h.symm
    have hs2 : ¬("上海" = c) := fun h => h2 h.symm
    have hs3 : ¬("广州" = c) := fun h => h3 h.symm
    simp [executeCityInfoTool, argStr, strOr, cityInfoTable, List.find?,
      hne, hs1, hs2, hs3, resultCountry]
  · intro args
    unfold executeCityInfoTool
    cases hfind : (cityInfoTable.find?
        (fun kv => kv.1 = strOr (argStr args "city") "北京")).map (fun kv => kv.2) with
    | none => simp [hfind, resultCountry]
    | some info => simp [hfind, resultCountry]

/-- Witness for C9 (amended): instantiated at the unknown city 东京. -/
theorem executeCityInfoTool_country_witness :
    ("东京" : String) ≠ "" ∧
    resultCountry (executeCityInfoTool [("city", "东京")]) = some "未知" :=
  ⟨by decide,
    (executeCityInfoTool_country "东京" (by decide) (by decide) (by decide)
      (by decide)).2.1⟩

/-- Claim C4: on every valid turn the user-role message is persisted
immediately, before any completion-provider call: whatever the oracle
outcomes (including a failing completion), the resulting store holds
the user message directly after the pre-existing messages, and any
message list handed to the plain completion call already contains the
user's message. -/
theorem chatHandler_persists_user_message (svc : List MCPToolDefinition)
    (oracles : ChatOracles) (req : ChatRequest) (store : Store)
    (hmsg : req.message ≠ "") :
    ∃ u rest,
      (chatHandler svc oracles req store).1.messages
        = store.messages ++ u :: rest ∧
      u.role = "user" ∧ u.content = req.message ∧
      (∀ inp, (chatHandler svc oracles req store).2.2.providerInput = some inp →
        (⟨"user", req.message⟩ : ChatMessage) ∈ inp) := by
  have hhandler : chatHandler svc oracles req store
      = chatAfterPersist svc oracles req ((truthyNat req.userId).getD 1)
          (resolveConversation store req.message req.conversationId
            ((truthyNat req.userId).getD 1)).1
          (createMessage
            (resolveConversation store req.message req.conversationId
              ((truthyNat req.userId).getD 1)).2
            ⟨"user", req.message, some ((truthyNat req.userId).getD 1),
              some (resolveConversation store req.message req.conversationId
                ((truthyNat req.userId).getD 1)).1, none, none⟩).2 := by
    unfold chatHandler
    rw [if_neg hmsg]
  obtain ⟨tl, htl⟩ := chatAfterPersist_messages_prefix svc oracles req
    ((truthyNat req.userId).getD 1)
    (resolveConversation store req.message req.conversationId
      ((truthyNat req.userId).getD 1)).1
    (createMessage
      (resolveConversation store req.message req.conversationId
        ((truthyNat req.userId).getD 1)).2
      ⟨"user", req.message, some ((truthyNat req.userId).getD 1),
        some (resolveConversation store req.message req.conversationId
          ((truthyNat req.userId).getD 1)).1, none, none⟩).2
  refine ⟨(createMessage
      (resolveConversation store req.message req.conversationId
        ((truthyNat req.userId).getD 1)).2
      ⟨"user", req.message, some ((truthyNat req.userId).getD 1),
        some (resolveConversation store req.message req.conversationId
          ((truthyNat req.userId).getD 1)).1, none, none⟩).1, tl, ?_, rfl, rfl, ?_⟩
  · rw [hhandler, ← htl, createMessage_messages,
      resolveConversation_messages, List.append_assoc]
    rfl
  · intro inp hinp
    rw [hhandler] at hinp
    have hm : (createMessage
        (resolveConversation store req.message req.conversationId
          ((truthyNat req.userId).getD 1)).2
        ⟨"user", req.message, some ((truthyNat req.userId).getD 1),
          some (resolveConversation store req.message req.conversationId
            ((truthyNat req.userId).getD 1)).1, none, none⟩).1 ∈
        getConversationMessages (createMessage
          (resolveConversation store req.message req.conversationId
            ((truthyNat req.userId).getD 1)).2
          ⟨"user", req.message, some ((truthyNat req.userId).getD 1),
            some (resolveConversation store req.message req.conversationId
              ((truthyNat req.userId).getD 1)).1, none, none⟩).2
          (resolveConversation store req.message req.conversationId
            ((truthyNat req.userId).getD 1)).1 := by
      rw [getConversationMessages_createMessage _ _ _ rfl]
      exact List.mem_append_right _ (List.mem_singleton.mpr rfl)
    exact chatAfterPersist_providerInput_mem svc oracles req _ _ _ inp hinp _ hm

/-- Witness for C4: a turn on a fresh conversation whose plain
completion call fails still ends with the user's message in the
store. -/
theorem chatHandler_persists_user_message_witness :
    ∃ u rest,
      (chatHandler defaultTools failOracles
        ⟨"hello", none, none, some 1, none⟩ demoStore).1.messages
        = demoStore.messages ++ u :: rest ∧
      u.role = "user" ∧ u.content = "hello" ∧
      (∀ inp, (chatHandler defaultTools failOracles
          ⟨"hello", none, none, some 1, none⟩ demoStore).2.2.providerInput
          = some inp →
        (⟨"user", "hello"⟩ : ChatMessage) ∈ inp) :=
  chatHandler_persists_user_message defaultTools failOracles
    ⟨"hello", none, none, some 1, none⟩ demoStore (by decide)

/-- Claim C1: a turn with `useTool=true` on a conversation with at
least one enabled tool, whose first-pass response requests a tool and
whose tool-result round-trip succeeds, appends exactly three message
rows in order: the user message with the submitted text, an assistant
message with non-null `toolCall`, and a tool message with non-null
`toolResult`. -/
theorem chatHandler_tool_turn (svc : List MCPToolDefinition) (env : ExecEnv)
    (api : Except Unit (Option String)) (store : Store) (msg : String)
    (cid : Nat) (c1 : Option String) (tc : ToolCallRequest)
    (rest : List ToolCallRequest) (c2 : Option String) (spid suid : Option Nat)
    (hmsg : msg ≠ "") (hcid : cid ≠ 0)
    (htools : chatEnabledTools store cid ≠ []) :
    ∃ u a t,
      (chatHandler svc ⟨.ok ⟨c1, tc :: rest⟩, .ok c2, api, env⟩
        ⟨msg, some cid, spid, suid, some true⟩ store).1.messages
        = store.messages ++ [u, a, t] ∧
      u.role = "user" ∧ u.content = msg ∧ u.conversationId = some cid ∧
      u.toolCall = none ∧ u.toolResult = none ∧
      a.role = "assistant" ∧ a.conversationId = some cid ∧
      a.toolCall.isSome = true ∧
      t.role = "tool" ∧ t.conversationId = some cid ∧
      t.toolResult.isSome = true := by
  obtain ⟨t0, ts, htl⟩ : ∃ t0 ts, chatEnabledTools store cid = t0 :: ts := by
    cases h : chatEnabledTools store cid with
    | nil => exact absurd h htools
    | cons x xs => exact ⟨x, xs, rfl⟩
  simp only [chatHandler]
  rw [if_neg hmsg]
  generalize (truthyNat suid).getD 1 = uid
  have hres : resolveConversation store msg (some cid) uid = (cid, store) := by
    unfold resolveConversation
    rw [truthyNat_of_ne_zero cid hcid]
  have hstools : chatEnabledTools
      { conversations := store.conversations,
        messages := store.messages ++
          [⟨store.nextMessageId, "user", msg, some uid, some cid, none, none⟩],
        systemPrompts := store.systemPrompts, mcpTools := store.mcpTools,
        nextMessageId := store.nextMessageId + 1,
        nextConversationId := store.nextConversationId } cid = t0 :: ts := htl
  simp only [hres, chatAfterPersist, hstools, Option.getD, List.map_cons,
    ne_eq, reduceCtorEq, not_false_iff, not_false_eq_true, and_true, true_and,
    if_true, and_self, processWithTools, createMessage, List.append_assoc,
    List.cons_append, List.singleton_append]
  exact ⟨_, _, _, rfl, rfl, rfl, rfl, rfl, rfl, rfl, rfl, rfl, rfl, rfl, rfl⟩

/-- Witness for C1: the demo conversation with `get_weather` enabled, a
first pass requesting `get_weather`, and a successful second pass. -/
theorem chatHandler_tool_turn_witness :
    ∃ u a t,
      (chatHandler defaultTools
        ⟨.ok ⟨some "calling", [⟨"get_weather", [("location", "北京")]⟩]⟩,
          .ok (some "done"), .ok (some "plain"), demoEnv⟩
        ⟨"hi", some 1, none, some 1, some true⟩ demoStore).1.messages
        = demoStore.messages ++ [u, a, t] ∧
      u.role = "user" ∧ u.content = "hi" ∧ u.conversationId = some 1 ∧
      u.toolCall = none ∧ u.toolResult = none ∧
      a.role = "assistant" ∧ a.conversationId = some 1 ∧
      a.toolCall.isSome = true ∧
      t.role = "tool" ∧ t.conversationId = some 1 ∧
      t.toolResult.isSome = true :=
  chatHandler_tool_turn defaultTools demoEnv (.ok (some "plain")) demoStore "hi" 1
    (some "calling") ⟨"get_weather", [("location", "北京")]⟩ [] (some "done")
    none (some 1) (by decide) (by decide) (by decide)

/-- Counterexample for C5: in the demo conversation only `get_weather`
is enabled, yet the turn declares `get_city_info` — a registry tool
outside the conversation's enabled subset — to the provider. -/
theorem chat_declares_unenabled_registry_tool :
    "get_city_info" ∈ (chatHandler defaultTools demoOracles
      ⟨"hi", some 1, none, some 1, some true⟩ demoStore).2.2.declared ∧
    "get_city_info" ∉ (chatHandler defaultTools demoOracles
      ⟨"hi", some 1, none, some 1, some true⟩ demoStore).2.2.available ∧
    (∀ t ∈ chatEnabledTools demoStore 1, t.name ≠ "get_city_info") := by
  decide

/-- Claim C5 (amended): the conversation's enabled subset only decides
WHETHER the tool path runs (and supplies the prompt text and
`availableTools`); once `processWithTools` is invoked, the
declarations sent to the provider are the full registry tool set,
independent of `Conversation.enabledTools`. -/
theorem chat_tool_path_declares_registry (svc : List MCPToolDefinition)
    (oracles : ChatOracles) (store : Store) (msg : String) (cid : Nat)
    (spid suid : Option Nat) (hmsg : msg ≠ "") (hcid : cid ≠ 0)
    (htools : chatEnabledTools store cid ≠ []) :
    (chatHandler svc oracles ⟨msg, some cid, spid, suid, some true⟩
        store).2.2.declared = svc.map (fun t => t.name) ∧
    (chatHandler svc oracles ⟨msg, some cid, spid, suid, some true⟩
        store).2.2.available
      = (chatEnabledTools store cid).map (fun t => t.name) := by
  obtain ⟨t0, ts, htl⟩ : ∃ t0 ts, chatEnabledTools store cid = t0 :: ts := by
    cases h : chatEnabledTools store cid with
    | nil => exact absurd h htools
    | cons x xs => exact ⟨x, xs, rfl⟩
  simp only [chatHandler]
  rw [if_neg hmsg]
  generalize (truthyNat suid).getD 1 = uid
  have hres : resolveConversation store msg (some cid) uid = (cid, store) := by
    unfold resolveConversation
    rw [truthyNat_of_ne_zero cid hcid]
  have hstools : chatEnabledTools
      { conversations := store.conversations,
        messages := store.messages ++
          [⟨store.nextMessageId, "user", msg, some uid, some cid, none, none⟩],
        systemPrompts := store.systemPrompts, mcpTools := store.mcpTools,
        nextMessageId := store.nextMessageId + 1,
        nextConversationId := store.nextConversationId } cid = t0 :: ts := htl
  rw [htl]
  simp only [hres, chatAfterPersist, hstools, Option.getD, List.map_cons,
    ne_eq, reduceCtorEq, not_false_iff, not_false_eq_true, and_true, true_and,
    if_true, and_self, createMessage]
  split <;> exact ⟨processWithTools_declared svc oracles.env _ _, rfl⟩

/-- Witness for C5 (amended): the demo turn declares both registry
tools while only `get_weather` is enabled. -/
theorem chat_tool_path_declares_registry_witness :
    (chatHandler defaultTools demoOracles
        ⟨"hi", some 1, none, some 1, some true⟩ demoStore).2.2.declared
      = (defaultTools).map (fun t => t.name) ∧
    (chatHandler defaultTools demoOracles
        ⟨"hi", some 1, none, some 1, some true⟩ demoStore).2.2.available
      = (chatEnabledTools demoStore 1).map (fun t => t.name) :=
  chat_tool_path_declares_registry defaultTools demoOracles demoStore "hi" 1
    none (some 1) (by decide) (by decide) (by decide)

/-- Claim C7 (code-bug evaluation): a provider response that uses the
advertised `[USE_TOOL:<id>:<json>]` text-marker syntax (and no native
tool call) is persisted verbatim as a plain assistant message: no tool
is executed, no tool-role message is appended, and the assistant
message's `toolCall` is null — the marker is never pattern-matched. -/
theorem chat_marker_response_not_dispatched :
    (chatHandler defaultTools markerOracles
      ⟨"hi", some 1, none, some 1, some true⟩ demoStore).1.messages.map
        (fun m => (m.role, m.content, m.toolCall.isSome, m.toolResult.isSome))
      = [("user", "hi", false, false),
         ("assistant", "[USE_TOOL:1:\x7b\x7d]", false, false)] ∧
    (chatHandler defaultTools markerOracles
      ⟨"hi", some 1, none, some 1, some true⟩ demoStore).2.2.executed = [] ∧
    strContains "[USE_TOOL:1:\x7b\x7d]" "[USE_TOOL:" = true := by
  decide

/-- Claim C10: when a user has no default SystemPrompt,
`getDefaultSystemPrompt` falls back to the user's most recently
created prompt (maximal timestamp) whenever the user owns at least one
prompt, and the conversation `/api/chat` creates is attached to that
prompt's id; only a user owning zero prompts gets a conversation with
no `systemPromptId`. -/
theorem getDefaultSystemPrompt_fallback (store : Store) (msg : String) (uid : Nat)
    (hnone : ∀ p ∈ store.systemPrompts, ¬(p.userId = some uid ∧ p.isDefault = true)) :
    (store.systemPrompts.filter (fun p => p.userId = some uid) = [] →
      (createConversationForChat store msg uid).1.systemPromptId = none) ∧
    (∀ p₀ ∈ store.systemPrompts, p₀.userId = some uid →
      ∃ p, getDefaultSystemPrompt store.systemPrompts uid = some p ∧
        p.userId = some uid ∧
        (∀ q ∈ store.systemPrompts, q.userId = some uid →
          q.timestamp ≤ p.timestamp) ∧
        (createConversationForChat store msg uid).1.systemPromptId = some p.id) := by
  have hfind : store.systemPrompts.find?
      (fun p => p.userId = some uid ∧ p.isDefault = true) = none := by
    rw [List.find?_eq_none]
    intro x hx
    simpa using hnone x hx
  have hconv : (createConversationForChat store msg uid).1.systemPromptId
      = (getDefaultSystemPrompt store.systemPrompts uid).map (fun p => p.id) := rfl
  have hget : getDefaultSystemPrompt store.systemPrompts uid
      = (getUserSystemPrompts store.systemPrompts uid).head? := by
    rw [getDefaultSystemPrompt, hfind]
  constructor
  · intro hfilter
    rw [hconv, hget, getUserSystemPrompts, hfilter]
    rfl
  · intro p₀ hp₀ hp₀uid
    have hp₀filter : p₀ ∈ store.systemPrompts.filter (fun p => p.userId = some uid) :=
      List.mem_filter.mpr ⟨hp₀, by simp [hp₀uid]⟩
    have hne : store.systemPrompts.filter (fun p => p.userId = some uid) ≠ [] := by
      intro hnil
      rw [hnil] at hp₀filter
      cases hp₀filter
    cases hsort : getUserSystemPrompts store.systemPrompts uid with
    | nil =>
      rw [getUserSystemPrompts] at hsort
      exact absurd (sortByTimestampDesc_eq_nil.mp hsort) hne
    | cons p tl =>
      refine ⟨p, ?_, ?_, ?_, ?_⟩
      · rw [hget, hsort]
        rfl
      · have hpmem : p ∈ getUserSystemPrompts store.systemPrompts uid := by
          rw [hsort]
          exact List.mem_cons_self p tl
        rw [getUserSystemPrompts] at hpmem
        have := List.mem_filter.mp (mem_sortByTimestampDesc.mp hpmem)
        simpa using this.2
      · intro q hq hquid
        have hqfilter : q ∈ store.systemPrompts.filter (fun p => p.userId = some uid) :=
          List.mem_filter.mpr ⟨hq, by simp [hquid]⟩
        rw [getUserSystemPrompts] at hsort
        exact sortByTimestampDesc_head_max _ p tl hsort q hqfilter
      · rw [hconv, hget, hsort]
        rfl

/-- Witness for C10: user 1 owns prompts with timestamps 5 and 9 and no
default; the fallback picks the prompt with timestamp 9 (id 2) and a
fresh conversation is attached to it. -/
theorem getDefaultSystemPrompt_fallback_witness :
    ∃ p, getDefaultSystemPrompt demoPromptStore.systemPrompts 1 = some p ∧
      p.userId = some 1 ∧
      (∀ q ∈ demoPromptStore.systemPrompts, q.userId = some 1 →
        q.timestamp ≤ p.timestamp) ∧
      (createConversationForChat demoPromptStore "hello" 1).1.systemPromptId
        = some p.id :=
  (getDefaultSystemPrompt_fallback demoPromptStore "hello" 1 (by decide)).2
    ⟨1, "x", "c1", some 1, false, 5⟩ (by decide) (by decide)

end AiChatSync
